import Mathlib

/-!
Shallow embedding of the griddle data-series core (phetsims/lightbulb).

The embedding follows `src/js/XYDataSeries.js`, the model-view transform
updates in `src/js/ScrollingChartNode.js`, and the demo listeners in
`src/unnamed/part_001`.  JavaScript arrays are modelled as total maps
`Int → Option α`: reading an index that was never assigned (including any
negative index) yields `undefined`, modelled as `none`; assignment at any
index `i ≥ 0` grows the array transparently, so the preallocated
`initialSize` has no observable effect on reads and writes.  JavaScript
listener identity (the `===` used by `Array.prototype.indexOf`) is modelled
by giving each listener a `Nat` identifier compared with `=`.
-/

namespace Griddle

/-- One point-added notification delivered to a data-series listener:
the listener id together with the four callback arguments
`(x, y, previousX, previousY)`; the previous values are `Option`s because
the source reads `xPoints[length-1]`, which is `undefined` for the first
point. -/
structure Notif (α : Type) where
  listener : Nat
  x : α
  y : α
  prevX : Option α
  prevY : Option α
deriving DecidableEq

/-- State of one `XYDataSeries` instance (`src/js/XYDataSeries.js`).
`clearedListeners` holds the listeners registered with the AXON `Events`
mixin for the `cleared` event (the mixin is initialized by
`Events.call(this)` in the constructor); `listeners` holds the listeners
registered through `addDataSeriesListener`. -/
structure XYDataSeries (α : Type) where
  color : String
  listeners : List Nat
  clearedListeners : List Nat
  xPoints : Int → Option α
  yPoints : Int → Option α
  dataSeriesLength : Int

/-- The freshly constructed series state: empty listener lists, both backing
arrays entirely `undefined`, logical length `0`.  The contents of
`new Array(initialSize)` are all `undefined` regardless of `initialSize`,
so the state does not depend on it. -/
def mkRaw (α : Type) (color : String) : XYDataSeries α :=
  { color := color
    listeners := []
    clearedListeners := []
    xPoints := fun _ => none
    yPoints := fun _ => none
    dataSeriesLength := 0 }

/-- The `XYDataSeries` constructor.  It performs no validation itself;
the only failure is the JavaScript `RangeError: Invalid array length`
raised by `new Array(options.initialSize)` when the size is not a valid
array length (negative, or at least 2^32; fractional lengths cannot arise
here because sizes are modelled as integers). -/
def mkXYDataSeries (α : Type) (color : String) (initialSize : Int) :
    Except String (XYDataSeries α) :=
  if initialSize < 0 ∨ 4294967296 ≤ initialSize then
    Except.error "Invalid array length"
  else
    Except.ok (mkRaw α color)

/-- `addDataSeriesListener`: pushes the listener onto the end of the list. -/
def addDataSeriesListener (s : XYDataSeries α) (l : Nat) : XYDataSeries α :=
  { s with listeners := s.listeners ++ [l] }

/-- Removal of the first occurrence of `l`, by identity; absent, the list is
unchanged.  This is what `indexOf` followed by `splice(index, 1)` does in
`removeDataSeriesListener` (`indexOf` returns the first index whose element
is `===` the argument, or `-1`, in which case nothing is spliced). -/
def eraseFirst : List Nat → Nat → List Nat
  | [], _ => []
  | a :: rest, l => if a = l then rest else a :: eraseFirst rest l

/-- `removeDataSeriesListener`: `indexOf` + `splice` when found, no-op when
the listener is not registered. -/
def removeDataSeriesListener (s : XYDataSeries α) (l : Nat) : XYDataSeries α :=
  { s with listeners := eraseFirst s.listeners l }

/-- Registration for the `cleared` event through the AXON `Events` mixin
(`on('cleared', ...)`): appends to the event's listener list. -/
def onCleared (s : XYDataSeries α) (l : Nat) : XYDataSeries α :=
  { s with clearedListeners := s.clearedListeners ++ [l] }

/-- The intermediate state of `addPoint` after the two stores
`xPoints[dataSeriesLength] = x; yPoints[dataSeriesLength] = y` but before
`dataSeriesLength++`: the state in which the listener loop runs. -/
def addPointMid (s : XYDataSeries α) (x y : α) : XYDataSeries α :=
  { s with
    xPoints := fun i => if i = s.dataSeriesLength then some x else s.xPoints i
    yPoints := fun i => if i = s.dataSeriesLength then some y else s.yPoints i }

/-- `addPoint(x, y)`: store the data, notify every listener in list order
with `(x, y, xPoints[dataSeriesLength-1], yPoints[dataSeriesLength-1])`
(read in the intermediate state, before the increment), then increment
`dataSeriesLength`.  Returns the final state and the ordered list of
notifications the call delivered. -/
def addPoint (s : XYDataSeries α) (x y : α) : XYDataSeries α × List (Notif α) :=
  let mid := addPointMid s x y
  ( { mid with dataSeriesLength := mid.dataSeriesLength + 1 },
    mid.listeners.map fun l =>
      ⟨l, x, y, mid.xPoints (mid.dataSeriesLength - 1),
        mid.yPoints (mid.dataSeriesLength - 1)⟩ )

/-- `clear()`: reset `dataSeriesLength` to 0 and `trigger('cleared')`,
which notifies each listener registered for `cleared` once, in registration
order.  Returns the new state and the ordered list of notified listeners. -/
def clear (s : XYDataSeries α) : XYDataSeries α × List Nat :=
  ( { s with dataSeriesLength := 0 }, s.clearedListeners )

/-- `getX(index)`: throws when `index > dataSeriesLength - 1`, otherwise
returns `xPoints[index]` (which may be `undefined`, i.e. `none`; in
particular a negative `index` is not rejected). -/
def getX (s : XYDataSeries α) (index : Int) : Except String (Option α) :=
  if index > s.dataSeriesLength - 1 then
    Except.error ("No Data Point Exist at this index " ++ toString index)
  else
    Except.ok (s.xPoints index)

/-- `getY(index)`: same guard as `getX`, reading `yPoints`. -/
def getY (s : XYDataSeries α) (index : Int) : Except String (Option α) :=
  if index > s.dataSeriesLength - 1 then
    Except.error ("No Data Point Exist at this index " ++ toString index)
  else
    Except.ok (s.yPoints index)

/-- `getLength()`: plain accessor for `dataSeriesLength`. -/
def getLength (s : XYDataSeries α) : Int :=
  s.dataSeriesLength

/-- Whether an `Except` computation succeeded. -/
def isOkE : Except ε β → Bool
  | Except.ok _ => true
  | Except.error _ => false

/-- Run a sequence of `addPoint` calls, keeping the final state and the
concatenated notification trace in call order. -/
def addPointsTrace (s : XYDataSeries α) : List (α × α) → XYDataSeries α × List (Notif α)
  | [] => (s, [])
  | (x, y) :: rest =>
    let step := addPoint s x y
    let tail := addPointsTrace step.1 rest
    (tail.1, step.2 ++ tail.2)

/-- Final state after a sequence of `addPoint` calls. -/
def addPoints (s : XYDataSeries α) (pts : List (α × α)) : XYDataSeries α :=
  (addPointsTrace s pts).1

/-- The series has `undefined` at every negative array index.  This holds
for every reachable state: the constructor leaves both arrays entirely
`undefined` and `addPoint` only ever assigns index `dataSeriesLength ≥ 0`. -/
def NegUndefined (s : XYDataSeries α) : Prop :=
  ∀ i : Int, i < 0 → s.xPoints i = none ∧ s.yPoints i = none

/-- An axis-aligned rectangle `Bounds2( minX, minY, maxX, maxY )`; the
model-space source rectangle of the rectangle-mapping transforms.
Coordinates are rationals standing in for JavaScript numbers. -/
structure Bounds2 where
  minX : ℚ
  minY : ℚ
  maxX : ℚ
  maxY : ℚ
deriving DecidableEq

/-- The source rectangle that `ScrollingChartNode`'s `timeProperty` link
installs at tracked time `time`: `Bounds2( time - 4, -1, time, +1 )`
(`src/js/ScrollingChartNode.js`, lines 110-116).  The 4-unit window is
hard-coded and slides for every `time`, from `time = 0` on. -/
def scrollingChartSourceBounds (time : ℚ) : Bounds2 :=
  ⟨time - 4, -1, time, 1⟩

/-- The window span of the `XYChartNode` demo (`demoScrollingChartNode` in
`src/unnamed/part_001`): `maxTime = horizontalRange.max = 10`. -/
def demoMaxTime : ℚ := 10

/-- The initial source rectangle of the demo's
`modelViewTransformProperty`: `horizontalRange × verticalRange`
= `Bounds2( 0, -5, 10, 5 )`. -/
def demoInitialSourceBounds : Bounds2 := ⟨0, -5, 10, 5⟩

/-- One tick of the demo listener as far as the transform is concerned
(`src/unnamed/part_001`, lines 394-409): increment the tracked time by
`dt`; when the new time exceeds `maxTime`, replace the source rectangle by
`Bounds2( t - maxTime, -5 + t - maxTime, t, 5 + t - maxTime )`, otherwise
leave the property's rectangle unchanged. -/
def demoStep (st : ℚ × Bounds2) (dt : ℚ) : ℚ × Bounds2 :=
  let t := st.1 + dt
  if t > demoMaxTime then
    (t, ⟨t - demoMaxTime, -5 + t - demoMaxTime, t, 5 + t - demoMaxTime⟩)
  else
    (t, st.2)

/-- The demo's tracked time and source rectangle after a sequence of ticks,
starting from time 0 with the initial rectangle. -/
def demoRun (dts : List ℚ) : ℚ × Bounds2 :=
  dts.foldl demoStep (0, demoInitialSourceBounds)

/-- Modelled from the spec: `DynamicSeries.getDataPoint` and
`DynamicSeries.shiftData` are not under `src/` (only their demo callers
are).  Per the spec, `getDataPoint(i)` returns the i-th stored point and
`shiftData` evicts index 0, renumbering the rest from 0, so a
`DynamicSeries` buffer is modelled as the list of its `(x, y)` points in
index order, with `shiftData` removing the head. -/
def shiftData : List (ℚ × ℚ) → List (ℚ × ℚ)
  | [] => []
  | _ :: rest => rest

/-- The demo eviction loop (`src/unnamed/part_001`, lines 424-427 and
477-479): `while ( series.getDataPoint( 0 ).x < threshold ) series.shiftData()`
with `threshold = timeProperty.value - maxTime`, expressed by structural
recursion on the buffer list. -/
def evictOldestWhile (threshold : ℚ) : List (ℚ × ℚ) → List (ℚ × ℚ)
  | [] => []
  | p :: rest =>
    if p.1 < threshold then evictOldestWhile threshold rest else p :: rest

/-! ### Helper lemmas -/

@[simp]
theorem addPointMid_len (s : XYDataSeries α) (x y : α) :
    (addPointMid s x y).dataSeriesLength = s.dataSeriesLength := rfl

@[simp]
theorem addPoint_fst_len (s : XYDataSeries α) (x y : α) :
    (addPoint s x y).1.dataSeriesLength = s.dataSeriesLength + 1 := rfl

@[simp]
theorem addPoint_fst_listeners (s : XYDataSeries α) (x y : α) :
    (addPoint s x y).1.listeners = s.listeners := rfl

theorem addPoint_fst_xPoints (s : XYDataSeries α) (x y : α) (i : Int) :
    (addPoint s x y).1.xPoints i =
      if i = s.dataSeriesLength then some x else s.xPoints i := rfl

theorem addPoint_fst_yPoints (s : XYDataSeries α) (x y : α) (i : Int) :
    (addPoint s x y).1.yPoints i =
      if i = s.dataSeriesLength then some y else s.yPoints i := rfl

theorem getX_if (s : XYDataSeries α) (i : Int) :
    getX s i = if i > s.dataSeriesLength - 1 then
        Except.error ("No Data Point Exist at this index " ++ toString i)
      else Except.ok (s.xPoints i) := rfl

theorem getY_if (s : XYDataSeries α) (i : Int) :
    getY s i = if i > s.dataSeriesLength - 1 then
        Except.error ("No Data Point Exist at this index " ++ toString i)
      else Except.ok (s.yPoints i) := rfl

theorem addPoints_cons (s : XYDataSeries α) (x y : α) (rest : List (α × α)) :
    addPoints s ((x, y) :: rest) = addPoints (addPoint s x y).1 rest := rfl

theorem addPoints_length (pts : List (α × α)) :
    ∀ s : XYDataSeries α,
      (addPoints s pts).dataSeriesLength = s.dataSeriesLength + pts.length := by
  induction pts with
  | nil => intro s; simp [addPoints, addPointsTrace]
  | cons p rest ih =>
    intro s
    obtain ⟨x, y⟩ := p
    rw [addPoints_cons, ih]
    simp
    omega

theorem addPoints_preserve (pts : List (α × α)) :
    ∀ (s : XYDataSeries α) (i : Int), i < s.dataSeriesLength →
      (addPoints s pts).xPoints i = s.xPoints i ∧
      (addPoints s pts).yPoints i = s.yPoints i := by
  induction pts with
  | nil => intro s i _; exact ⟨rfl, rfl⟩
  | cons p rest ih =>
    intro s i hi
    obtain ⟨x, y⟩ := p
    rw [addPoints_cons]
    have hne : i ≠ s.dataSeriesLength := ne_of_lt hi
    have h1 : i < (addPoint s x y).1.dataSeriesLength := by
      rw [addPoint_fst_len]; omega
    obtain ⟨hx, hy⟩ := ih (addPoint s x y).1 i h1
    rw [hx, hy, addPoint_fst_xPoints, addPoint_fst_yPoints,
      if_neg hne, if_neg hne]
    exact ⟨rfl, rfl⟩

theorem addPoints_get (pts : List (α × α)) :
    ∀ (s : XYDataSeries α) (i : Nat) (h : i < pts.length),
      0 ≤ s.dataSeriesLength →
      (addPoints s pts).xPoints (s.dataSeriesLength + i) =
        some (pts.get ⟨i, h⟩).1 ∧
      (addPoints s pts).yPoints (s.dataSeriesLength + i) =
        some (pts.get ⟨i, h⟩).2 := by
  induction pts with
  | nil => intro s i h _; exact absurd h (by simp)
  | cons p rest ih =>
    intro s i h h0
    obtain ⟨x, y⟩ := p
    rw [addPoints_cons]
    cases i with
    | zero =>
      have h1 : s.dataSeriesLength < (addPoint s x y).1.dataSeriesLength := by
        rw [addPoint_fst_len]; omega
      obtain ⟨hx, hy⟩ := addPoints_preserve rest (addPoint s x y).1
        s.dataSeriesLength h1
      have hi0 : s.dataSeriesLength + ((0 : Nat) : Int) = s.dataSeriesLength := by
        omega
      rw [hi0, hx, hy, addPoint_fst_xPoints, addPoint_fst_yPoints,
        if_pos rfl, if_pos rfl]
      exact ⟨rfl, rfl⟩
    | succ j =>
      have hj : j < rest.length := by
        simpa using h
      have h0j : 0 ≤ (addPoint s x y).1.dataSeriesLength := by
        rw [addPoint_fst_len]; omega
      obtain ⟨hx, hy⟩ := ih (addPoint s x y).1 j hj h0j
      have hidx : s.dataSeriesLength + ((j + 1 : Nat) : Int) =
          (addPoint s x y).1.dataSeriesLength + (j : Int) := by
        rw [addPoint_fst_len]; push_cast; ring
      rw [hidx, hx, hy]
      exact ⟨rfl, rfl⟩

/-! ### C1 -/

/-- C1 (append/read round-trip): a fresh series built by the constructor
with any accepted capacity hint, after appending any sequence of pairs in
order via `addPoint`, returns exactly the i-th appended pair from
`getX(i)`/`getY(i)` for every `i` below the length — in particular also
when more points are appended than the `initialSize` hint, since the hint
has no observable effect on the backing arrays.  Series instances share no
state (the constructor allocates fresh listener lists and arrays per
instance), so the result depends only on this series' own appends. -/
theorem xySeries_append_read_roundtrip (color : String) (initialSize : Int)
    (s0 : XYDataSeries α) (pts : List (α × α)) (i : Nat)
    (hmk : mkXYDataSeries α color initialSize = Except.ok s0)
    (hi : i < pts.length) :
    getX (addPoints s0 pts) i = Except.ok (some (pts.get ⟨i, hi⟩).1) ∧
    getY (addPoints s0 pts) i = Except.ok (some (pts.get ⟨i, hi⟩).2) := by
  have hs0 : s0 = mkRaw α color := by
    by_cases hcond : initialSize < 0 ∨ 4294967296 ≤ initialSize
    · rw [mkXYDataSeries, if_pos hcond] at hmk
      exact Except.noConfusion hmk
    · rw [mkXYDataSeries, if_neg hcond] at hmk
      injection hmk with h
      exact h.symm
  subst hs0
  have hlen : (addPoints (mkRaw α color) pts).dataSeriesLength = pts.length := by
    rw [addPoints_length]
    simp [mkRaw]
  have hnoerr : ¬ ((i : Int) > (addPoints (mkRaw α color) pts).dataSeriesLength - 1) := by
    rw [hlen]
    omega
  obtain ⟨hx, hy⟩ := addPoints_get pts (mkRaw α color) i hi (by simp [mkRaw])
  have hidx : (mkRaw α color).dataSeriesLength + (i : Int) = (i : Int) := by
    simp [mkRaw]
  rw [hidx] at hx hy
  rw [getX_if, getY_if, if_neg hnoerr, if_neg hnoerr, hx, hy]
  exact ⟨rfl, rfl⟩

/-- Witness for C1: a hint of 1 with three appended points (growth past the
hint), read back at index 2. -/
theorem xySeries_append_read_roundtrip_witness :
    getX (addPoints (mkRaw Int "black") [(1, 2), (3, 4), (5, 6)]) 2 =
      Except.ok (some 5) ∧
    getY (addPoints (mkRaw Int "black") [(1, 2), (3, 4), (5, 6)]) 2 =
      Except.ok (some 6) :=
  xySeries_append_read_roundtrip "black" 1 (mkRaw Int "black")
    [(1, 2), (3, 4), (5, 6)] 2 (by rfl) (by decide)

theorem addPoint_events_eq (s : XYDataSeries α) (x y : α) :
    (addPoint s x y).2 = s.listeners.map fun l =>
      ⟨l, x, y, s.xPoints (s.dataSeriesLength - 1),
        s.yPoints (s.dataSeriesLength - 1)⟩ := by
  have hx : (addPointMid s x y).xPoints (s.dataSeriesLength - 1) =
      s.xPoints (s.dataSeriesLength - 1) := by
    show (if s.dataSeriesLength - 1 = s.dataSeriesLength then some x
      else s.xPoints (s.dataSeriesLength - 1)) = _
    rw [if_neg (by omega)]
  have hy : (addPointMid s x y).yPoints (s.dataSeriesLength - 1) =
      s.yPoints (s.dataSeriesLength - 1) := by
    show (if s.dataSeriesLength - 1 = s.dataSeriesLength then some y
      else s.yPoints (s.dataSeriesLength - 1)) = _
    rw [if_neg (by omega)]
  show (s.listeners.map fun l =>
      (⟨l, x, y, (addPointMid s x y).xPoints (s.dataSeriesLength - 1),
        (addPointMid s x y).yPoints (s.dataSeriesLength - 1)⟩ : Notif α)) = _
  simp only [hx, hy]

theorem addPointsTrace_cons (s : XYDataSeries α) (x y : α) (rest : List (α × α)) :
    (addPointsTrace s ((x, y) :: rest)).2 =
      (addPoint s x y).2 ++ (addPointsTrace (addPoint s x y).1 rest).2 := rfl

theorem addPointsTrace_events (pts : List (α × α)) :
    ∀ s : XYDataSeries α,
      ((addPointsTrace s pts).2.map fun n => (n.listener, n.x, n.y)) =
        pts.flatMap fun p => s.listeners.map fun m => (m, p.1, p.2) := by
  induction pts with
  | nil => intro s; rfl
  | cons p rest ih =>
    intro s
    obtain ⟨x, y⟩ := p
    rw [addPointsTrace_cons, List.map_append, ih, addPoint_fst_listeners,
      addPoint_events_eq, List.map_map, List.flatMap_cons]
    rfl

theorem filter_notif_map_length (L : List Nat) (l : Nat) (x y : α)
    (px py : Option α) :
    ((L.map fun m => (⟨m, x, y, px, py⟩ : Notif α)).filter
      fun n => n.listener == l).length = L.count l := by
  rw [List.filter_map, List.length_map]
  show (L.filter fun m => m == l).length = L.count l
  rw [List.count]
  induction L with
  | nil => rfl
  | cons a rest ih =>
    simp only [List.filter_cons, List.countP_cons]
    by_cases ha : (a == l) = true
    · simp [ha, ih]
    · simp [ha, ih]

theorem addPointsTrace_filter_length (pts : List (α × α)) :
    ∀ (s : XYDataSeries α) (l : Nat),
      ((addPointsTrace s pts).2.filter fun n => n.listener == l).length =
        pts.length * s.listeners.count l := by
  induction pts with
  | nil => intro s l; simp [addPointsTrace]
  | cons p rest ih =>
    intro s l
    obtain ⟨x, y⟩ := p
    rw [addPointsTrace_cons, List.filter_append, List.length_append, ih,
      addPoint_fst_listeners, addPoint_events_eq, filter_notif_map_length,
      List.length_cons]
    ring

/-! ### C4 -/

/-- C4 (notification count and order): the full notification trace of a
sequence of `addPoint` calls delivers, per call and in call order, exactly
one `(listener, x, y)` notification to each entry of the listener list in
registration order; hence a listener registered exactly once receives
exactly `N` notifications for `N` calls.  `clear()` triggers the `cleared`
event once to each listener registered for it (via the AXON `Events`
mixin), in registration order and independently of `dataSeriesLength`, so
a listener registered once receives exactly one cleared notification. -/
theorem notification_count_and_order (s : XYDataSeries α)
    (pts : List (α × α)) (l : Nat) :
    ((addPointsTrace s pts).2.map fun n => (n.listener, n.x, n.y)) =
      (pts.flatMap fun p => s.listeners.map fun m => (m, p.1, p.2)) ∧
    (s.listeners.count l = 1 →
      ((addPointsTrace s pts).2.filter fun n => n.listener == l).length =
        pts.length) ∧
    (clear s).2 = s.clearedListeners ∧
    (s.clearedListeners.count l = 1 → (clear s).2.count l = 1) := by
  refine ⟨addPointsTrace_events pts s, ?_, rfl, fun h => h⟩
  intro h
  rw [addPointsTrace_filter_length, h, Nat.mul_one]

/-- Witness for C4: a series with one point-listener (id 7) and one
cleared-listener (id 9); two `addPoint` calls produce two notifications to
listener 7, and `clear` notifies listener 9 once even though two points are
buffered. -/
theorem notification_count_and_order_witness :
    ((addPointsTrace (onCleared (addDataSeriesListener (mkRaw Int "black") 7) 9)
        [(1, 2), (3, 4)]).2.filter fun n => n.listener == 7).length = 2 ∧
    ((clear (addPoints (onCleared (addDataSeriesListener (mkRaw Int "black") 7) 9)
        [(1, 2), (3, 4)])).2.count 9 = 1) :=
  ⟨(notification_count_and_order
      (onCleared (addDataSeriesListener (mkRaw Int "black") 7) 9)
      [(1, 2), (3, 4)] 7).2.1 (by decide),
    (notification_count_and_order
      (addPoints (onCleared (addDataSeriesListener (mkRaw Int "black") 7) 9)
        [(1, 2), (3, 4)])
      [] 9).2.2.2 (by decide)⟩

/-! ### C5 -/

/-- C5 (previous-point callback arguments): every `addPoint(x, y)` call
notifies each registered listener with `(x, y, previousX, previousY)` where
the previous values are read from the slot immediately preceding the newly
written one (`xPoints[dataSeriesLength-1]`, `yPoints[dataSeriesLength-1]`);
when the logical length is 0 at the time of the call — a fresh series, or
immediately after `clear()` — these reads hit index `-1`, which holds
`undefined`, the no-previous-value sentinel. -/
theorem addPoint_previous_args (s : XYDataSeries α) (x y : α) :
    (addPoint s x y).2 = (s.listeners.map fun l =>
      ⟨l, x, y, s.xPoints (s.dataSeriesLength - 1),
        s.yPoints (s.dataSeriesLength - 1)⟩) ∧
    (s.dataSeriesLength = 0 → NegUndefined s →
      (addPoint s x y).2 = s.listeners.map fun l => ⟨l, x, y, none, none⟩) := by
  refine ⟨addPoint_events_eq s x y, fun h0 hneg => ?_⟩
  rw [addPoint_events_eq]
  obtain ⟨hx, hy⟩ := hneg (s.dataSeriesLength - 1) (by omega)
  simp only [hx, hy]

/-- Witness for C5: one registered listener (id 5) on a fresh series; the
first `addPoint` reports `none` as both previous values. -/
theorem addPoint_previous_args_witness :
    (addPoint (addDataSeriesListener (mkRaw Int "black") 5) 1 2).2 =
      [⟨5, 1, 2, none, none⟩] :=
  (addPoint_previous_args (addDataSeriesListener (mkRaw Int "black") 5) 1 2).2
    rfl (fun _ _ => ⟨rfl, rfl⟩)

/-! ### C9 -/

/-- C9 (implicit ordering inside `addPoint`): the stores and the listener
loop run in the intermediate state `addPointMid`, before
`dataSeriesLength++`.  In that state `getLength()` still returns the
pre-append length, `getX` at that pre-append length throws the
out-of-range error even though the new point's values are already stored
at that index, and the final state differs from the intermediate one only
by the incremented length. -/
theorem addPoint_length_increment_order (s : XYDataSeries α) (x y : α) :
    getLength (addPointMid s x y) = getLength s ∧
    (addPoint s x y).1 =
      { addPointMid s x y with dataSeriesLength := s.dataSeriesLength + 1 } ∧
    getX (addPointMid s x y) (getLength s) =
      Except.error ("No Data Point Exist at this index " ++
        toString (getLength s)) ∧
    getY (addPointMid s x y) (getLength s) =
      Except.error ("No Data Point Exist at this index " ++
        toString (getLength s)) ∧
    (addPointMid s x y).xPoints (getLength s) = some x ∧
    (addPointMid s x y).yPoints (getLength s) = some y := by
  have hlen : getLength s = s.dataSeriesLength := rfl
  refine ⟨rfl, rfl, ?_, ?_, ?_, ?_⟩
  · rw [getX_if, addPointMid_len, hlen, if_pos (by omega)]
  · rw [getY_if, addPointMid_len, hlen, if_pos (by omega)]
  · show (if s.dataSeriesLength = s.dataSeriesLength then some x
      else s.xPoints s.dataSeriesLength) = some x
    rw [if_pos rfl]
  · show (if s.dataSeriesLength = s.dataSeriesLength then some y
      else s.yPoints s.dataSeriesLength) = some y
    rw [if_pos rfl]

/-! ### C10 -/

/-- C10 (frame condition of `clear`): `clear()` resets `dataSeriesLength`
to 0 and triggers exactly the `cleared` event; the color, both listener
lists, and every stored value in the backing arrays are unchanged, and the
next `addPoint` writes its values at index 0 again (overwriting the old
slot 0 value in the intermediate state in which listeners run). -/
theorem clear_frame_condition (s : XYDataSeries α) (x y : α) :
    (clear s).1.color = s.color ∧
    (clear s).1.listeners = s.listeners ∧
    (clear s).1.clearedListeners = s.clearedListeners ∧
    (clear s).1.xPoints = s.xPoints ∧
    (clear s).1.yPoints = s.yPoints ∧
    (clear s).1.dataSeriesLength = 0 ∧
    (clear s).2 = s.clearedListeners ∧
    (addPointMid (clear s).1 x y).xPoints 0 = some x ∧
    (addPointMid (clear s).1 x y).yPoints 0 = some y := by
  refine ⟨rfl, rfl, rfl, rfl, rfl, rfl, rfl, ?_, ?_⟩
  · show (if (0 : Int) = 0 then some x else s.xPoints 0) = some x
    rw [if_pos rfl]
  · show (if (0 : Int) = 0 then some y else s.yPoints 0) = some y
    rw [if_pos rfl]

/-! ### C2 -/

/-- Counterexample for C2 as stated: on a fresh series (length 0) the call
`getX(-1)` does not raise the out-of-range error — the guard only checks
`index > dataSeriesLength - 1` — and instead silently returns the
`undefined` value. -/
theorem get_negative_index_silent :
    getX (mkRaw Int "black") (-1) = Except.ok none ∧
    (mkRaw Int "black").dataSeriesLength = 0 :=
  ⟨rfl, rfl⟩

/-- C2 amended: `getX(i)`/`getY(i)` raise the out-of-range error exactly
when `i ≥ length`; they succeed for every `i < length`, including negative
`i`, where (in any reachable state) they silently return the `undefined`
value rather than raising; `getX(length-1)`/`getY(length-1)` succeed when
`length > 0`. -/
theorem get_bounds_check (s : XYDataSeries α) (i : Int) :
    (isOkE (getX s i) = true ↔ i < s.dataSeriesLength) ∧
    (isOkE (getY s i) = true ↔ i < s.dataSeriesLength) ∧
    (i < s.dataSeriesLength →
      getX s i = Except.ok (s.xPoints i) ∧
      getY s i = Except.ok (s.yPoints i)) ∧
    (i < 0 → 0 ≤ s.dataSeriesLength → NegUndefined s →
      getX s i = Except.ok none ∧ getY s i = Except.ok none) ∧
    (0 < s.dataSeriesLength →
      isOkE (getX s (s.dataSeriesLength - 1)) = true ∧
      isOkE (getY s (s.dataSeriesLength - 1)) = true) := by
  refine ⟨?_, ?_, ?_, ?_, ?_⟩
  · by_cases h : i > s.dataSeriesLength - 1
    · rw [getX_if, if_pos h]
      simp [isOkE]
      omega
    · rw [getX_if, if_neg h]
      simp [isOkE]
      omega
  · by_cases h : i > s.dataSeriesLength - 1
    · rw [getY_if, if_pos h]
      simp [isOkE]
      omega
    · rw [getY_if, if_neg h]
      simp [isOkE]
      omega
  · intro h
    rw [getX_if, if_neg (by omega), getY_if, if_neg (by omega)]
    exact ⟨rfl, rfl⟩
  · intro hi h0 hneg
    obtain ⟨hx, hy⟩ := hneg i hi
    rw [getX_if, if_neg (by omega), getY_if, if_neg (by omega), hx, hy]
    exact ⟨rfl, rfl⟩
  · intro h
    rw [getX_if, if_neg (by omega), getY_if, if_neg (by omega)]
    exact ⟨rfl, rfl⟩

/-- Witness for the amended C2, on a series with one stored point: index 0
succeeds with the stored value, index -1 silently yields `undefined`, and
index `length - 1` succeeds. -/
theorem get_bounds_check_witness :
    isOkE (getX (addPoint (mkRaw Int "black") 3 4).1 0) = true ∧
    getX (addPoint (mkRaw Int "black") 3 4).1 0 = Except.ok (some 3) ∧
    getX (addPoint (mkRaw Int "black") 3 4).1 (-1) = Except.ok none ∧
    isOkE (getX (addPoint (mkRaw Int "black") 3 4).1
      ((addPoint (mkRaw Int "black") 3 4).1.dataSeriesLength - 1)) = true :=
  ⟨(get_bounds_check (addPoint (mkRaw Int "black") 3 4).1 0).1.mpr (by decide),
    ((get_bounds_check (addPoint (mkRaw Int "black") 3 4).1 0).2.2.1
      (by decide)).1,
    ((get_bounds_check (addPoint (mkRaw Int "black") 3 4).1 (-1)).2.2.2.1
      (by decide) (by decide)
      (by
        intro i hi
        refine ⟨?_, ?_⟩
        · show (if i = (0 : Int) then some 3 else none) = none
          rw [if_neg (by omega)]
        · show (if i = (0 : Int) then some 4 else none) = none
          rw [if_neg (by omega)])).1,
    ((get_bounds_check (addPoint (mkRaw Int "black") 3 4).1
      ((addPoint (mkRaw Int "black") 3 4).1.dataSeriesLength - 1)).2.2.2.2
      (by decide)).1⟩

/-! ### C7 -/

theorem eraseFirst_not_mem (L : List Nat) (l : Nat) :
    l ∉ L → eraseFirst L l = L := by
  induction L with
  | nil => intro _; rfl
  | cons a rest ih =>
    intro h
    simp only [List.mem_cons, not_or] at h
    rw [eraseFirst, if_neg (fun he => h.1 he.symm), ih h.2]

theorem eraseFirst_count_le_one (L : List Nat) (l : Nat) :
    L.count l ≤ 1 → l ∉ eraseFirst L l := by
  induction L with
  | nil => intro _; simp [eraseFirst]
  | cons a rest ih =>
    intro h
    by_cases ha : a = l
    · rw [eraseFirst, if_pos ha]
      subst ha
      rw [List.count_cons_self] at h
      exact List.count_eq_zero.mp (by omega)
    · rw [eraseFirst, if_neg ha]
      intro hm
      rcases List.mem_cons.mp hm with rfl | hm2
      · exact ha rfl
      · refine ih ?_ hm2
        rw [List.count_cons_of_ne (fun he => ha he.symm)] at h
        exact h

theorem eraseFirst_filter_other (L : List Nat) (l l2 : Nat) :
    l2 ≠ l →
    (eraseFirst L l).filter (fun m => m == l2) =
      L.filter (fun m => m == l2) := by
  induction L with
  | nil => intro _; rfl
  | cons a rest ih =>
    intro h
    by_cases ha : a = l
    · rw [eraseFirst, if_pos ha]
      have hne : ¬ ((a == l2) = true) := by
        simp only [beq_iff_eq]
        rw [ha]
        exact fun he => h he.symm
      rw [List.filter_cons, if_neg hne]
    · rw [eraseFirst, if_neg ha]
      simp only [List.filter_cons]
      rw [ih h]

@[simp]
theorem remove_xPoints (s : XYDataSeries α) (l : Nat) :
    (removeDataSeriesListener s l).xPoints = s.xPoints := rfl

@[simp]
theorem remove_yPoints (s : XYDataSeries α) (l : Nat) :
    (removeDataSeriesListener s l).yPoints = s.yPoints := rfl

@[simp]
theorem remove_len (s : XYDataSeries α) (l : Nat) :
    (removeDataSeriesListener s l).dataSeriesLength = s.dataSeriesLength := rfl

@[simp]
theorem remove_listeners (s : XYDataSeries α) (l : Nat) :
    (removeDataSeriesListener s l).listeners = eraseFirst s.listeners l := rfl

/-- C7 (idempotent listener removal): removing a listener that was never
registered leaves the series unchanged (and raises nothing — `indexOf`
returns -1 and no splice happens); removing again after a successful
removal is a no-op; and removal of one listener does not change the
notifications `addPoint` delivers to any other listener.  Removal matches
by listener identity, modelled as equality of listener ids. -/
theorem remove_listener_safe (s : XYDataSeries α) (l l2 : Nat) (x y : α) :
    (l ∉ s.listeners → removeDataSeriesListener s l = s) ∧
    (s.listeners.count l ≤ 1 →
      removeDataSeriesListener (removeDataSeriesListener s l) l =
        removeDataSeriesListener s l) ∧
    (l2 ≠ l →
      ((addPoint (removeDataSeriesListener s l) x y).2.filter
        fun n => n.listener == l2) =
      ((addPoint s x y).2.filter fun n => n.listener == l2)) := by
  refine ⟨?_, ?_, ?_⟩
  · intro h
    show { s with listeners := eraseFirst s.listeners l } = s
    rw [eraseFirst_not_mem s.listeners l h]
  · intro h
    show { removeDataSeriesListener s l with
        listeners := eraseFirst (removeDataSeriesListener s l).listeners l } =
      removeDataSeriesListener s l
    rw [remove_listeners,
      eraseFirst_not_mem _ l (eraseFirst_count_le_one s.listeners l h)]
    rfl
  · intro h
    rw [addPoint_events_eq, addPoint_events_eq, remove_xPoints, remove_yPoints,
      remove_len, remove_listeners, List.filter_map, List.filter_map]
    exact congrArg _ (eraseFirst_filter_other s.listeners l l2 h)

/-- Witness for C7: with listeners 5 and 8 registered, removing the
never-registered id 3 is a no-op, a second removal of 5 after the first is
a no-op, and removing 5 leaves the notifications that an `addPoint`
delivers to listener 8 unchanged. -/
theorem remove_listener_safe_witness :
    removeDataSeriesListener
      (addDataSeriesListener (addDataSeriesListener (mkRaw Int "black") 5) 8)
      3 =
      addDataSeriesListener (addDataSeriesListener (mkRaw Int "black") 5) 8 ∧
    removeDataSeriesListener (removeDataSeriesListener
      (addDataSeriesListener (addDataSeriesListener (mkRaw Int "black") 5) 8)
      5) 5 =
      removeDataSeriesListener
        (addDataSeriesListener (addDataSeriesListener (mkRaw Int "black") 5) 8)
        5 ∧
    ((addPoint (removeDataSeriesListener
        (addDataSeriesListener (addDataSeriesListener (mkRaw Int "black") 5) 8)
        5) 1 2).2.filter fun n => n.listener == 8) =
      ((addPoint
        (addDataSeriesListener (addDataSeriesListener (mkRaw Int "black") 5) 8)
        1 2).2.filter fun n => n.listener == 8) :=
  ⟨(remove_listener_safe
      (addDataSeriesListener (addDataSeriesListener (mkRaw Int "black") 5) 8)
      3 8 1 2).1 (by decide),
    (remove_listener_safe
      (addDataSeriesListener (addDataSeriesListener (mkRaw Int "black") 5) 8)
      5 8 1 2).2.1 (by decide),
    (remove_listener_safe
      (addDataSeriesListener (addDataSeriesListener (mkRaw Int "black") 5) 8)
      5 8 1 2).2.2 (by decide)⟩

/-! ### C8 -/

/-- Counterexample for C8 as stated: an initial capacity hint of 0 is
non-positive, yet construction succeeds — the constructor performs no
validation and `new Array(0)` is a valid (empty, growable) array. -/
theorem mk_nonpositive_succeeds :
    mkXYDataSeries Int "black" 0 = Except.ok (mkRaw Int "black") := rfl

/-- C8 amended: construction fails fast exactly for hints that are not
valid JavaScript array lengths — every negative `initialSize` raises
`Invalid array length` from `new Array` — while `initialSize = 0` (also
non-positive) succeeds with a degenerate but functional configuration.  No
window-span validation exists: the span is hard-coded (4 time units in
`ScrollingChartNode`, `maxTime` constants in the demos), not a constructor
parameter. -/
theorem mk_validation :
    (∀ n : Int, n < 0 →
      mkXYDataSeries Int "black" n = Except.error "Invalid array length") ∧
    mkXYDataSeries Int "black" 0 = Except.ok (mkRaw Int "black") := by
  constructor
  · intro n hn
    rw [mkXYDataSeries, if_pos (Or.inl hn)]
  · rfl

/-- Witness for the amended C8 at `initialSize = -1` and `0`. -/
theorem mk_validation_witness :
    mkXYDataSeries Int "black" (-1) = Except.error "Invalid array length" ∧
    mkXYDataSeries Int "black" 0 = Except.ok (mkRaw Int "black") :=
  ⟨mk_validation.1 (-1) (by decide), mk_validation.2⟩

/-! ### C3 -/

theorem demoStep_fst (st : ℚ × Bounds2) (d : ℚ) :
    (demoStep st d).1 = st.1 + d := by
  rw [demoStep]
  split <;> rfl

theorem demoStep_snd_of_le (st : ℚ × Bounds2) (d : ℚ)
    (h : ¬ st.1 + d > demoMaxTime) : (demoStep st d).2 = st.2 := by
  rw [demoStep]
  split
  · exact absurd (by assumption) h
  · rfl

theorem demoStep_snd_of_gt (st : ℚ × Bounds2) (d : ℚ)
    (h : st.1 + d > demoMaxTime) :
    (demoStep st d).2 =
      ⟨st.1 + d - demoMaxTime, -5 + (st.1 + d) - demoMaxTime,
        st.1 + d, 5 + (st.1 + d) - demoMaxTime⟩ := by
  rw [demoStep]
  split
  · rfl
  · exact absurd h (by assumption)

theorem demoStep_foldl_inv (dts : List ℚ) :
    ∀ st : ℚ × Bounds2, (∀ d ∈ dts, 0 ≤ d) →
      0 ≤ st.1 →
      (st.1 ≤ demoMaxTime → st.2 = demoInitialSourceBounds) →
      (demoMaxTime < st.1 →
        st.2 = ⟨st.1 - demoMaxTime, -5 + st.1 - demoMaxTime, st.1,
          5 + st.1 - demoMaxTime⟩) →
      0 ≤ (dts.foldl demoStep st).1 ∧
      ((dts.foldl demoStep st).1 ≤ demoMaxTime →
        (dts.foldl demoStep st).2 = demoInitialSourceBounds) ∧
      (demoMaxTime < (dts.foldl demoStep st).1 →
        (dts.foldl demoStep st).2 =
          ⟨(dts.foldl demoStep st).1 - demoMaxTime,
            -5 + (dts.foldl demoStep st).1 - demoMaxTime,
            (dts.foldl demoStep st).1,
            5 + (dts.foldl demoStep st).1 - demoMaxTime⟩) := by
  induction dts with
  | nil => intro st _ h0 h1 h2; exact ⟨h0, h1, h2⟩
  | cons d rest ih =>
    intro st hpos h0 h1 h2
    have hd : 0 ≤ d := hpos d (List.mem_cons_self d rest)
    show _ ∧ _ ∧ _
    rw [List.foldl_cons]
    refine ih (demoStep st d) (fun e he => hpos e (List.mem_cons_of_mem d he))
      ?_ ?_ ?_
    · rw [demoStep_fst]
      linarith
    · intro hle
      rw [demoStep_fst] at hle
      rw [demoStep_snd_of_le st d (by linarith)]
      exact h1 (by linarith)
    · intro hgt
      rw [demoStep_fst] at hgt
      rw [demoStep_snd_of_gt st d hgt, demoStep_fst]

/-- Counterexample for C3 as stated: `ScrollingChartNode` is one of the two
cited implementations of the sliding-window transform; its window span is
the hard-coded 4 time units, yet at tracked time `t = 2 ≤ 4` its source
rectangle is `[-2, 2] × [-1, 1]`, not the fixed `[0, 4] × [-1, 1]` the
claim requires while `t ≤ windowSpan`: it slides in lockstep with `t` from
`t = 0` on. -/
theorem scrolling_chart_early_window_counterexample :
    scrollingChartSourceBounds 2 ≠ ⟨0, -1, 4, 1⟩ := by
  intro h
  have h2 : (scrollingChartSourceBounds 2).minX = 0 := by rw [h]
  rw [scrollingChartSourceBounds] at h2
  norm_num at h2

/-- C3 amended: the demo listener (`demoScrollingChartNode`, the other
cited source) implements the claimed policy for its configured
`windowSpan = maxTime = 10`: starting from time 0 with the initial source
rectangle `[0, 10] × [-5, 5]` and stepping by non-negative `dt`s, while
`t ≤ 10` the source rectangle stays fixed at the initial `[0, 10]`
rectangle, and once `t > 10` its horizontal extent is exactly
`[t - 10, t]`.  `ScrollingChartNode`, by contrast, keeps its source
rectangle at `[time - 4, time] × [-1, 1]` for every tracked time,
sliding from `t = 0` instead of holding an initial fixed window. -/
theorem demoRun_window (dts : List ℚ) (h : ∀ d ∈ dts, 0 ≤ d) :
    ((demoRun dts).1 ≤ demoMaxTime →
      (demoRun dts).2 = demoInitialSourceBounds) ∧
    (demoMaxTime < (demoRun dts).1 →
      (demoRun dts).2.minX = (demoRun dts).1 - demoMaxTime ∧
      (demoRun dts).2.maxX = (demoRun dts).1) ∧
    (∀ time : ℚ, scrollingChartSourceBounds time = ⟨time - 4, -1, time, 1⟩) := by
  obtain ⟨-, h1, h2⟩ := demoStep_foldl_inv dts (0, demoInitialSourceBounds) h
    le_rfl (fun _ => rfl)
    (fun hc => absurd hc (by rw [demoMaxTime]; norm_num))
  refine ⟨h1, fun hgt => ?_, fun _ => rfl⟩
  rw [show (demoRun dts).2 = (dts.foldl demoStep (0, demoInitialSourceBounds)).2
    from rfl, h2 hgt]
  exact ⟨rfl, rfl⟩

/-- Witness for the amended C3: two ticks of 6 reach `t = 12 > 10` with
source x-extent `[2, 12]` (the spec's example), while two ticks of 4 reach
`t = 8 ≤ 10` with the rectangle still at the initial `[0, 10] × [-5, 5]`. -/
theorem demoRun_window_witness :
    (demoRun [6, 6]).2.minX = (demoRun [6, 6]).1 - demoMaxTime ∧
    (demoRun [6, 6]).2.maxX = (demoRun [6, 6]).1 ∧
    (demoRun [4, 4]).2 = demoInitialSourceBounds := by
  have h12 := (demoRun_window [6, 6]
    (by intro d hd; simp at hd; rw [hd]; norm_num)).2.1
  have h8 := (demoRun_window [4, 4]
    (by intro d hd; simp at hd; rw [hd]; norm_num)).1
  have ht12 : (demoRun [6, 6]).1 = 12 := by
    rw [show demoRun [6, 6] =
      demoStep (demoStep (0, demoInitialSourceBounds) 6) 6 from rfl,
      demoStep_fst, demoStep_fst]
    norm_num
  have ht8 : (demoRun [4, 4]).1 = 8 := by
    rw [show demoRun [4, 4] =
      demoStep (demoStep (0, demoInitialSourceBounds) 4) 4 from rfl,
      demoStep_fst, demoStep_fst]
    norm_num
  obtain ⟨ha, hb⟩ := h12 (by rw [ht12, demoMaxTime]; norm_num)
  exact ⟨ha, hb, h8 (by rw [ht8, demoMaxTime]; norm_num)⟩

/-! ### C6 -/

/-- The demo loop body in terms of the spec-modelled `shiftData`: when the
oldest point is older than the threshold the loop shifts it off and
continues, otherwise it stops. -/
theorem evictOldestWhile_shiftData (threshold : ℚ) (p : ℚ × ℚ)
    (rest : List (ℚ × ℚ)) :
    evictOldestWhile threshold (p :: rest) =
      if p.1 < threshold then evictOldestWhile threshold (shiftData (p :: rest))
      else p :: rest := rfl

theorem evictOldestWhile_bound (pts : List (ℚ × ℚ)) :
    ∀ (t maxTime : ℚ), 0 ≤ maxTime →
      List.Pairwise (fun p q : ℚ × ℚ => p.1 ≤ q.1) pts →
      (∃ q ∈ pts, t ≤ q.1) →
      evictOldestWhile (t - maxTime) pts ≠ [] ∧
      ∀ p ∈ evictOldestWhile (t - maxTime) pts, t - p.1 ≤ maxTime := by
  induction pts with
  | nil =>
    intro t m _ _ hex
    obtain ⟨q, hq, -⟩ := hex
    exact absurd hq (by simp)
  | cons a rest ih =>
    intro t m hm hp hex
    rw [List.pairwise_cons] at hp
    obtain ⟨ha, hrest⟩ := hp
    by_cases hc : a.1 < t - m
    · rw [evictOldestWhile, if_pos hc]
      refine ih t m hm hrest ?_
      obtain ⟨q, hq, hqt⟩ := hex
      rcases List.mem_cons.mp hq with rfl | hq2
      · exact absurd hqt (by linarith)
      · exact ⟨q, hq2, hqt⟩
    · rw [evictOldestWhile, if_neg hc]
      refine ⟨by simp, ?_⟩
      intro p hpm
      rcases List.mem_cons.mp hpm with rfl | hp2
      · linarith [not_lt.mp hc]
      · have := ha p hp2
        have h2 := not_lt.mp hc
        linarith

/-- C6 (eviction-on-scroll): for a buffer whose points have ascending x
values and whose newest (last-appended) point has x-value `newest.1`, the
demo loop that repeatedly evicts the oldest point while
`getDataPoint(0).x < newest.x - maxTime` leaves a non-empty buffer in
which no point's x is more than `maxTime` less than the newest point's x. -/
theorem eviction_on_scroll (front : List (ℚ × ℚ)) (newest : ℚ × ℚ)
    (maxTime : ℚ) (hm : 0 ≤ maxTime)
    (hsorted : List.Pairwise (fun p q : ℚ × ℚ => p.1 ≤ q.1)
      (front ++ [newest])) :
    evictOldestWhile (newest.1 - maxTime) (front ++ [newest]) ≠ [] ∧
    ∀ p ∈ evictOldestWhile (newest.1 - maxTime) (front ++ [newest]),
      newest.1 - p.1 ≤ maxTime :=
  evictOldestWhile_bound (front ++ [newest]) newest.1 maxTime hm hsorted
    ⟨newest, by simp, le_rfl⟩

/-- Witness for C6: points at times 0 and 5 with a newest point at
`t = 12` and `maxTime = 10`; the loop evicts the point at 0 and every
remaining point is within 10 of the newest x. -/
theorem eviction_on_scroll_witness :
    evictOldestWhile (((12 : ℚ), (2 : ℚ)).1 - 10)
      ([((0 : ℚ), (0 : ℚ)), ((5 : ℚ), (1 : ℚ))] ++ [((12 : ℚ), (2 : ℚ))]) ≠ [] ∧
    ∀ p ∈ evictOldestWhile (((12 : ℚ), (2 : ℚ)).1 - 10)
      ([((0 : ℚ), (0 : ℚ)), ((5 : ℚ), (1 : ℚ))] ++ [((12 : ℚ), (2 : ℚ))]),
      ((12 : ℚ), (2 : ℚ)).1 - p.1 ≤ 10 :=
  eviction_on_scroll [(0, 0), (5, 1)] (12, 2) 10 (by norm_num) (by decide)

end Griddle
